import Mathlib

/-!
Shallow embedding of `custom_components/pvpc_updated/config_flow.py`:
the PVPC setup / reauthentication config flow (`TariffSelectorConfigFlow`)
and the options flow (`PVPCOptionsFlowHandler`).

Each Python step handler becomes an executable Lean function on an explicit
flow-state value.  The external token validator
`PVPCData.check_api_token(timestamp, token) -> bool` is a function parameter
`check : Nat → Option String → Bool`; every invocation of it is recorded in a
call log so that claims about the number of external calls can be stated.
Each handler also records the step ids it passes through in a `visited` list.

Contracted power values are opaque payload floats in the source, copied
verbatim and never computed with; they are represented by `Nat`.
-/

namespace PVPC

/-- Opaque contracted-power payload value (a float in the source, carried
verbatim through the flows with no arithmetic). -/
abbrev Power := Nat

/-- The persisted configuration record built by the setup / reauth flow:
the `data` dict `{CONF_NAME, ATTR_TARIFF, ATTR_POWER, ATTR_POWER_P3,
CONF_API_TOKEN}`.  Fields mirror the Python values, which come from
instance attributes of type `X | None`. -/
structure EntryData where
  name : Option String
  tariff : Option String
  power : Option Power
  power_p3 : Option Power
  api_token : Option String
deriving Repr, DecidableEq

/-- The `data` dict committed by the options flow:
`{ATTR_POWER, ATTR_POWER_P3, CONF_API_TOKEN}` and nothing else. -/
structure OptionsData where
  power : Option Power
  power_p3 : Option Power
  api_token : Option String
deriving Repr, DecidableEq

/-- A stored config entry as the options flow sees it: its `data` dict and its
`options` dict.  `options = none` models the initially empty options dict;
`options = some o` models a complete options dict written by the options
flow (it always writes all three keys). -/
structure ConfigEntry where
  data : EntryData
  options : Option OptionsData
deriving Repr, DecidableEq

/-- The mutable attributes of `TariffSelectorConfigFlow`
(`_name`, `_tariff`, `_power`, `_power_p3`, `_use_api_token`, `_api_token`,
`_api`), plus whether the flow was started with `source == SOURCE_REAUTH`. -/
structure SetupState where
  name : Option String
  tariff : Option String
  power : Option Power
  power_p3 : Option Power
  use_api_token : Bool
  api_token : Option String
  api : Bool
  source_reauth : Bool
deriving Repr, DecidableEq

/-- The class-attribute defaults of `TariffSelectorConfigFlow`. -/
def initialSetupState (source_reauth : Bool) : SetupState :=
  { name := none, tariff := none, power := none, power_p3 := none,
    use_api_token := false, api_token := none, api := false,
    source_reauth := source_reauth }

/-- Outcome of a setup / reauth flow step handler: render a form (with its
step id and `errors` dict), create a new entry, abort because the unique id
(the tariff) is already configured, or update-reload-and-abort on reauth.
`internalError` models a failed `assert`. -/
inductive SetupResult where
  | showForm (step_id : String) (errors : List (String × String))
  | createEntry (title : String) (data : EntryData)
  | abortAlreadyConfigured
  | updateReloadAndAbort (data : EntryData)
  | internalError
deriving Repr, DecidableEq

/-- What one setup / reauth handler invocation produces: its flow result, the
updated flow state, the log of `check_api_token` calls made, and the step
ids passed through. -/
structure StepOut where
  result : SetupResult
  state : SetupState
  calls : List (Nat × Option String)
  visited : List String
deriving Repr, DecidableEq

/-- The `user_input` dict of `async_step_user` (all keys `vol.Required`). -/
structure UserStepInput where
  name : String
  tariff : String
  power : Power
  power_p3 : Power
  use_api_token : Bool
deriving Repr, DecidableEq

/-- The `user_input` dict of `async_step_reauth_confirm`:
`CONF_USE_API_TOKEN` is required, `CONF_API_TOKEN` is optional. -/
structure ReauthInput where
  use_api_token : Bool
  api_token : Option String
deriving Repr, DecidableEq

/-- Embedding of `TariffSelectorConfigFlow._async_verify(step_id)`.
If `_use_api_token` it lazily creates the API client and calls
`check_api_token(utcnow(), self._api_token)`; on failure it re-shows the
form for `step_id` with the single error `invalid_auth`; on success it builds
the data dict and either updates-in-place (reauth source) or asserts the
name and creates the entry. -/
def _async_verify (check : Nat → Option String → Bool) (now : Nat)
    (st : SetupState) (step_id : String) : StepOut :=
  let st1 := if st.use_api_token && !st.api then { st with api := true } else st
  let auth_ok : Bool := if st1.use_api_token then check now st1.api_token else true
  let calls : List (Nat × Option String) :=
    if st1.use_api_token then [(now, st1.api_token)] else []
  if auth_ok = false then
    { result := .showForm step_id [("base", "invalid_auth")],
      state := st1, calls := calls, visited := ["verify"] }
  else
    let data : EntryData :=
      { name := st1.name, tariff := st1.tariff, power := st1.power,
        power_p3 := st1.power_p3,
        api_token := if st1.use_api_token then st1.api_token else none }
    if st1.source_reauth then
      { result := .updateReloadAndAbort data,
        state := st1, calls := calls, visited := ["verify"] }
    else
      match st1.name with
      | some n =>
          { result := .createEntry n data,
            state := st1, calls := calls, visited := ["verify"] }
      | none =>
          { result := .internalError, state := st1, calls := calls,
            visited := ["verify"] }

/-- Embedding of `TariffSelectorConfigFlow.async_step_api_token`.
With input it stores `_api_token` and chains into `_async_verify". Without
input it shows the token form. -/
def async_step_api_token (check : Nat → Option String → Bool) (now : Nat)
    (st : SetupState) (user_input : Option String) : StepOut :=
  match user_input with
  | some tok =>
      let st1 := { st with api_token := some tok }
      let v := _async_verify check now st1 "api_token"
      { v with visited := "api_token" :: v.visited }
  | none =>
      { result := .showForm "api_token" [], state := st, calls := [],
        visited := ["api_token"] }

/-- Embedding of `TariffSelectorConfigFlow.async_step_user`.
With input it sets the unique id to the tariff and aborts if already
configured, stores the submitted fields, then branches: with
`use_api_token` it chains into the token step (no input yet, so that step
shows its form); otherwise it immediately creates the entry with a null
token.  `configured` is the list of unique ids (tariffs) of existing
entries. -/
def async_step_user (check : Nat → Option String → Bool) (now : Nat)
    (configured : List String) (st : SetupState)
    (user_input : Option UserStepInput) : StepOut :=
  match user_input with
  | some i =>
      if i.tariff ∈ configured then
        { result := .abortAlreadyConfigured, state := st, calls := [],
          visited := ["user"] }
      else
        let st1 :=
          { st with
            name := some i.name, tariff := some i.tariff,
            power := some i.power, power_p3 := some i.power_p3,
            use_api_token := i.use_api_token }
        if i.use_api_token then
          let v := async_step_api_token check now st1 none
          { v with visited := "user" :: v.visited }
        else
          { result := .createEntry i.name
              { name := some i.name, tariff := some i.tariff,
                power := some i.power, power_p3 := some i.power_p3,
                api_token := none },
            state := st1, calls := [], visited := ["user"] }
  | none =>
      { result := .showForm "user" [], state := st, calls := [],
        visited := ["user"] }

/-- Embedding of `TariffSelectorConfigFlow.async_step_reauth_confirm`.
A truthy input stores the optional token and the checkbox, then chains into
`_async_verify("reauth_confirm")`; otherwise the confirm form is shown. -/
def async_step_reauth_confirm (check : Nat → Option String → Bool) (now : Nat)
    (st : SetupState) (user_input : Option ReauthInput) : StepOut :=
  match user_input with
  | some i =>
      let st1 :=
        { st with
          api_token := i.api_token, use_api_token := i.use_api_token }
      let v := _async_verify check now st1 "reauth_confirm"
      { v with visited := "reauth_confirm" :: v.visited }
  | none =>
      { result := .showForm "reauth_confirm" [], state := st, calls := [],
        visited := ["reauth_confirm"] }

/-- Embedding of `TariffSelectorConfigFlow.async_step_reauth`: seeds the flow
state from the stored entry data (`use_api_token` is set iff a token is
stored) and chains into the confirm step with no input. -/
def async_step_reauth (check : Nat → Option String → Bool) (now : Nat)
    (entry_data : EntryData) : StepOut :=
  let st : SetupState :=
    { initialSetupState true with
      api_token := entry_data.api_token,
      use_api_token := entry_data.api_token.isSome,
      name := entry_data.name, tariff := entry_data.tariff,
      power := entry_data.power, power_p3 := entry_data.power_p3 }
  let v := async_step_reauth_confirm check now st none
  { v with visited := "reauth" :: v.visited }

/-! The options flow (`PVPCOptionsFlowHandler`). -/

/-- Outcome of an options flow step: render the init form (with its field
defaults), render the token form (with its token default), or create the
options entry (title is always the empty string in the source).  Both forms
are rendered with no `errors` dict. -/
inductive OptionsResult where
  | showFormInit (powerDefault powerP3Default : Option Power)
      (useDefault : Bool) (errors : List (String × String))
  | showFormToken (tokenDefault : Option String)
      (errors : List (String × String))
  | createEntry (title : String) (data : OptionsData)
deriving Repr, DecidableEq

/-- The mutable attributes `_power`, `_power_p3` of `PVPCOptionsFlowHandler`. -/
structure OptionsFlowState where
  power : Option Power
  power_p3 : Option Power
deriving Repr, DecidableEq

/-- The class-attribute defaults of `PVPCOptionsFlowHandler`. -/
def initialOptionsFlowState : OptionsFlowState := { power := none, power_p3 := none }

/-- What one options-flow handler invocation produces.  `calls` is the log of
`check_api_token` invocations; the options flow handlers contain no call to
the validator, so every handler produces an empty log. -/
structure OptStepOut where
  result : OptionsResult
  state : OptionsFlowState
  calls : List (Nat × Option String)
deriving Repr, DecidableEq

/-- The `user_input` dict of `PVPCOptionsFlowHandler.async_step_init`
(all keys `vol.Required`; it has no `CONF_API_TOKEN` key). -/
structure OptionsInitInput where
  power : Power
  power_p3 : Power
  use_api_token : Bool
deriving Repr, DecidableEq

/-- Lookup `options.get(key, data.get(key))` for `ATTR_POWER`. -/
def entryGetPower (e : ConfigEntry) : Option Power :=
  match e.options with
  | some o => o.power
  | none => e.data.power

/-- Lookup `options.get(key, data.get(key))` for `ATTR_POWER_P3`. -/
def entryGetPowerP3 (e : ConfigEntry) : Option Power :=
  match e.options with
  | some o => o.power_p3
  | none => e.data.power_p3

/-- Lookup `options.get(key, data.get(key))` for `CONF_API_TOKEN`. -/
def entryGetToken (e : ConfigEntry) : Option String :=
  match e.options with
  | some o => o.api_token
  | none => e.data.api_token

/-- Python truthiness of the optional token string: `None` and the empty
string are falsy. -/
def tokenTruthy : Option String → Bool
  | some s => s ≠ ""
  | none => false

/-- Embedding of `PVPCOptionsFlowHandler.async_step_api_token`.
`user_input` is `none` when the handler is called without input; otherwise
it carries `user_input.get(CONF_API_TOKEN)` (which is `none` when the dict
has no token key).  A truthy token commits the options entry; otherwise the
token form is shown, prefilled from options falling back to data. -/
def options_step_api_token (e : ConfigEntry) (fs : OptionsFlowState)
    (user_input : Option (Option String)) : OptStepOut :=
  let api_token : Option String :=
    match user_input with
    | some t => t
    | none => none
  if user_input.isSome && tokenTruthy api_token then
    { result := .createEntry ""
        { power := fs.power, power_p3 := fs.power_p3, api_token := api_token },
      state := fs, calls := [] }
  else
    { result := .showFormToken (entryGetToken e) [], state := fs, calls := [] }

/-- Embedding of `PVPCOptionsFlowHandler.async_step_init`.
With input it stores the powers, then either chains into the token step
(passing the init input, whose dict has no token key) or commits the
options entry with a null token.  Without input it shows the init form with
defaults looked up from options falling back to data. -/
def options_step_init (e : ConfigEntry) (fs : OptionsFlowState)
    (user_input : Option OptionsInitInput) : OptStepOut :=
  let power := entryGetPower e
  let power_p3 := entryGetPowerP3 e
  let api_token := entryGetToken e
  let use_api_token := api_token.isSome
  match user_input with
  | some i =>
      let fs1 : OptionsFlowState := { power := some i.power, power_p3 := some i.power_p3 }
      if i.use_api_token then
        options_step_api_token e fs1 (some none)
      else
        { result := .createEntry ""
            { power := fs1.power, power_p3 := fs1.power_p3, api_token := none },
          state := fs1, calls := [] }
  | none =>
      { result := .showFormInit power power_p3 use_api_token [], state := fs,
        calls := [] }

/-! Whole-session drivers: compose the handlers the way one wizard session
invokes them, submitting the given form answers in order. -/

/-- A complete setup-flow session: the user form is submitted with `userIn`;
when the flow answers with the token form, `tokenIn` is submitted there.
Returns the final result together with the concatenated validator-call log
and the concatenated list of step ids passed through. -/
def setupFlow (check : Nat → Option String → Bool) (now : Nat)
    (configured : List String) (userIn : UserStepInput) (tokenIn : String) :
    SetupResult × List (Nat × Option String) × List String :=
  let o1 := async_step_user check now configured (initialSetupState false) (some userIn)
  match o1.result with
  | .showForm "api_token" _ =>
      let o2 := async_step_api_token check now o1.state (some tokenIn)
      (o2.result, o1.calls ++ o2.calls, o1.visited ++ o2.visited)
  | r => (r, o1.calls, o1.visited)

/-- A complete reauth-flow session: the flow is started from the stored
`entry_data`; when the confirm form is shown, `confirmIn` is submitted.
Returns the final result with the concatenated validator-call log and step
trace. -/
def reauthFlow (check : Nat → Option String → Bool) (now : Nat)
    (entry_data : EntryData) (confirmIn : ReauthInput) :
    SetupResult × List (Nat × Option String) × List String :=
  let o1 := async_step_reauth check now entry_data
  match o1.result with
  | .showForm "reauth_confirm" _ =>
      let o2 := async_step_reauth_confirm check now o1.state (some confirmIn)
      (o2.result, o1.calls ++ o2.calls, o1.visited ++ o2.visited)
  | r => (r, o1.calls, o1.visited)

/-- A complete options-flow session: the init form is submitted with
`initIn`; when the flow answers with the token form, `tokenIn` is submitted
there.  Returns the final result with the concatenated validator-call log. -/
def optionsFlow (e : ConfigEntry) (initIn : OptionsInitInput)
    (tokenIn : Option String) : OptionsResult × List (Nat × Option String) :=
  let o1 := options_step_init e initialOptionsFlowState (some initIn)
  match o1.result with
  | .showFormToken _ _ =>
      let o2 := options_step_api_token e o1.state (some tokenIn)
      (o2.result, o1.calls ++ o2.calls)
  | r => (r, o1.calls)

/-! Host-side commit semantics.  The host framework's entry persistence
machinery is an external collaborator, not part of this repository's
source; its effect on the entry store is modelled from the spec. -/

/-- Modelled from the spec: the host framework's entry persistence machinery
(`async_create_entry`, `async_update_reload_and_abort`,
`_abort_if_unique_id_configured`), which is missing from src.  Creating an
entry appends a record; `async_update_reload_and_abort` on reauth success
"replaces the existing record in place" (the record at `reauthIndex`);
aborts, rendered forms and assertion failures change nothing. -/
def applySetupResult (entries : List EntryData) (reauthIndex : Nat)
    (r : SetupResult) : List EntryData :=
  match r with
  | .createEntry _ d => entries ++ [d]
  | .updateReloadAndAbort d => entries.set reauthIndex d
  | _ => entries

/-- Modelled from the spec: the host framework's options persistence, which
is missing from src.  Committing an options entry replaces the config
entry's options dict wholesale and leaves its data dict untouched; a
rendered form changes nothing. -/
def applyOptionsResult (e : ConfigEntry) (r : OptionsResult) : ConfigEntry :=
  match r with
  | .createEntry _ d => { e with options := some d }
  | _ => e

/-! Claim theorems. -/

/-- C5: an initial-setup submission whose tariff equals the tariff of an
already-configured record aborts (and the abort creates or modifies no
record); when no such record exists the flow never aborts with
already-configured. -/
theorem setup_unique_tariff_abort
    (check : Nat → Option String → Bool) (now : Nat) (configured : List String)
    (st : SetupState) (i : UserStepInput) (entries : List EntryData) (idx : Nat) :
    ((async_step_user check now configured st (some i)).result
        = SetupResult.abortAlreadyConfigured ↔ i.tariff ∈ configured)
    ∧ (i.tariff ∈ configured →
        applySetupResult entries idx
          (async_step_user check now configured st (some i)).result = entries) := by
  constructor
  · constructor
    · intro h
      by_contra hc
      simp [async_step_user, hc, async_step_api_token] at h
      rcases Bool.eq_false_or_eq_true i.use_api_token with hu | hu <;>
        simp [hu] at h
    · intro h
      simp [async_step_user, h]
  · intro h
    simp [async_step_user, h, applySetupResult]

/-- C5 witness: with configured tariff list `["2.0TD"]` and a submission for
tariff `2.0TD`, the step aborts and leaves the entry store unchanged. -/
theorem setup_unique_tariff_abort_witness :
    (((async_step_user (fun _ _ => true) 0 ["2.0TD"] (initialSetupState false)
        (some ⟨"PVPC", "2.0TD", 5, 4, false⟩)).result
          = SetupResult.abortAlreadyConfigured
      ↔ "2.0TD" ∈ (["2.0TD"] : List String))
    ∧ ("2.0TD" ∈ (["2.0TD"] : List String) →
        applySetupResult [] 0
          (async_step_user (fun _ _ => true) 0 ["2.0TD"] (initialSetupState false)
            (some ⟨"PVPC", "2.0TD", 5, 4, false⟩)).result = []))
    ∧ applySetupResult [] 0
        (async_step_user (fun _ _ => true) 0 ["2.0TD"] (initialSetupState false)
          (some ⟨"PVPC", "2.0TD", 5, 4, false⟩)).result = [] := by
  refine ⟨setup_unique_tariff_abort _ _ _ _ _ _ _, ?_⟩
  exact (setup_unique_tariff_abort (fun _ _ => true) 0 ["2.0TD"]
    (initialSetupState false) ⟨"PVPC", "2.0TD", 5, 4, false⟩ [] 0).2 (by decide)

/-- C3: when the token is in use and the external validator rejects it, the
verification step re-shows the form for the very step id it was invoked
from, with the single error `invalid_auth`, and the outcome persists no
record. -/
theorem verify_failure_reshows_form
    (check : Nat → Option String → Bool) (now : Nat) (st : SetupState)
    (step_id : String)
    (huse : st.use_api_token = true)
    (hchk : check now st.api_token = false) :
    (_async_verify check now st step_id).result
      = SetupResult.showForm step_id [("base", "invalid_auth")]
    ∧ ∀ entries idx,
        applySetupResult entries idx (_async_verify check now st step_id).result
          = entries := by
  have hres : (_async_verify check now st step_id).result
      = SetupResult.showForm step_id [("base", "invalid_auth")] := by
    rcases Bool.eq_false_or_eq_true st.api with ha | ha <;>
      simp [_async_verify, huse, ha, hchk]
  exact ⟨hres, fun entries idx => by simp [hres, applySetupResult]⟩

/-- C3 witness: an always-rejecting validator makes the verification step
invoked from the token step re-show that form with `invalid_auth`, and the
entry store is untouched. -/
theorem verify_failure_reshows_form_witness :
    (_async_verify (fun _ _ => false) 0
        { initialSetupState false with
          use_api_token := true, api_token := some "tok" } "api_token").result
      = SetupResult.showForm "api_token" [("base", "invalid_auth")]
    ∧ ∀ entries idx,
        applySetupResult entries idx
          (_async_verify (fun _ _ => false) 0
            { initialSetupState false with
              use_api_token := true, api_token := some "tok" } "api_token").result
          = entries :=
  verify_failure_reshows_form (fun _ _ => false) 0
    { initialSetupState false with use_api_token := true, api_token := some "tok" }
    "api_token" (by decide) (by decide)

/-- C8 counterexample: a reauthentication session that unchecks the token box
reaches the verification step (the trace passes through `verify`) while the
validator-call log stays empty, so a verification attempt does not always
perform exactly one `check_api_token` call. -/
theorem verify_single_call_counterexample :
    "verify" ∈ (reauthFlow (fun _ _ => true) 0
        ⟨some "PVPC", some "2.0TD", some 5, some 4, some "tok"⟩
        ⟨false, some "zzz"⟩).2.2
    ∧ (reauthFlow (fun _ _ => true) 0
        ⟨some "PVPC", some "2.0TD", some 5, some 4, some "tok"⟩
        ⟨false, some "zzz"⟩).2.1 = [] := by
  constructor <;> decide

/-- C8 amended: a verification attempt calls `check_api_token` exactly once
when the token is in use — with the current timestamp and the flow's token
— and not at all otherwise; in particular it never makes more than one
call and never retries. -/
theorem verify_single_call_amended
    (check : Nat → Option String → Bool) (now : Nat) (st : SetupState)
    (step_id : String) :
    (_async_verify check now st step_id).calls
      = (if st.use_api_token then [(now, st.api_token)] else [])
    ∧ (_async_verify check now st step_id).calls.length ≤ 1 := by
  have hcalls : (_async_verify check now st step_id).calls
      = (if st.use_api_token then [(now, st.api_token)] else []) := by
    rcases Bool.eq_false_or_eq_true st.use_api_token with hu | hu <;>
      rcases Bool.eq_false_or_eq_true st.api with ha | ha <;>
        rcases hb : check now st.api_token with _ | _ <;>
          rcases Bool.eq_false_or_eq_true st.source_reauth with hs | hs <;>
            rcases hn : st.name with _ | n <;>
              simp [_async_verify, hu, ha, hb, hs, hn]
  refine ⟨hcalls, ?_⟩
  rw [hcalls]
  rcases Bool.eq_false_or_eq_true st.use_api_token with hu | hu <;> simp [hu]

/-- C2: whenever the user submits with the token checkbox unchecked, the
committed record carries a null token, whatever token value the transient
flow state holds: directly from the setup user step, from any verification
attempt with the checkbox unchecked (covering reauth), from a whole reauth
session, and from the options init step. -/
theorem unchecked_token_commits_null
    (check : Nat → Option String → Bool) (now : Nat) (configured : List String)
    (st : SetupState) (step_id : String) (i : UserStepInput)
    (oi : OptionsInitInput) (e : ConfigEntry) (fs : OptionsFlowState)
    (ed : EntryData) (tok : Option String) :
    (i.use_api_token = false → i.tariff ∉ configured →
      (async_step_user check now configured st (some i)).result
        = SetupResult.createEntry i.name
            ⟨some i.name, some i.tariff, some i.power, some i.power_p3, none⟩)
    ∧ (st.use_api_token = false → ∀ t d,
        ((_async_verify check now st step_id).result = SetupResult.createEntry t d
          ∨ (_async_verify check now st step_id).result
              = SetupResult.updateReloadAndAbort d) →
        d.api_token = none)
    ∧ (oi.use_api_token = false →
        (options_step_init e fs (some oi)).result
          = OptionsResult.createEntry "" ⟨some oi.power, some oi.power_p3, none⟩)
    ∧ ((reauthFlow check now ed ⟨false, tok⟩).1
        = SetupResult.updateReloadAndAbort
            ⟨ed.name, ed.tariff, ed.power, ed.power_p3, none⟩) := by
  refine ⟨?_, ?_, ?_, ?_⟩
  · intro hu hmem
    simp [async_step_user, hu, hmem]
  · intro hu t d h
    rcases Bool.eq_false_or_eq_true st.source_reauth with hs | hs <;>
      rcases hn : st.name with _ | n <;>
        simp [_async_verify, hu, hs, hn] at h <;>
        first
        | (subst h; rfl)
        | (obtain ⟨h1, h2⟩ := h; subst h2; rfl)
  · intro ho
    simp [options_step_init, ho]
  · simp [reauthFlow, async_step_reauth, async_step_reauth_confirm,
      _async_verify, initialSetupState]

/-- C2 witness: a concrete setup submission, verification state, options init
submission and reauth session with the checkbox unchecked all commit a null
token. -/
theorem unchecked_token_commits_null_witness :
    ((async_step_user (fun _ _ => true) 0 [] (initialSetupState false)
        (some ⟨"PVPC", "2.0TD", 5, 4, false⟩)).result
      = SetupResult.createEntry "PVPC"
          ⟨some "PVPC", some "2.0TD", some 5, some 4, none⟩)
    ∧ ((options_step_init ⟨⟨some "PVPC", some "2.0TD", some 5, some 4, none⟩, none⟩
          initialOptionsFlowState (some ⟨9, 8, false⟩)).result
        = OptionsResult.createEntry "" ⟨some 9, some 8, none⟩)
    ∧ ((reauthFlow (fun _ _ => true) 0
          ⟨some "PVPC", some "2.0TD", some 5, some 4, some "old"⟩
          ⟨false, some "zzz"⟩).1
        = SetupResult.updateReloadAndAbort
            ⟨some "PVPC", some "2.0TD", some 5, some 4, none⟩) := by
  have h := unchecked_token_commits_null (fun _ _ => true) 0 []
    (initialSetupState false) "api_token" ⟨"PVPC", "2.0TD", 5, 4, false⟩
    ⟨9, 8, false⟩ ⟨⟨some "PVPC", some "2.0TD", some 5, some 4, none⟩, none⟩
    initialOptionsFlowState
    ⟨some "PVPC", some "2.0TD", some 5, some 4, some "old"⟩ (some "zzz")
  exact ⟨h.1 rfl (by decide), h.2.2.1 rfl, h.2.2.2⟩

/-- C1 counterexample: two committed records violate the claim as stated.
A reauth session that keeps the checkbox on but submits no token, under a
validator that accepts everything, commits a record with a null token while
`use_api_token` is true; and an options session commits a non-null token
while its validator-call log is empty, so no validator accepted that token
during the session. -/
theorem token_invariant_counterexample :
    ((reauthFlow (fun _ _ => true) 0
        ⟨some "PVPC", some "2.0TD", some 5, some 4, some "old"⟩ ⟨true, none⟩).1
      = SetupResult.updateReloadAndAbort
          ⟨some "PVPC", some "2.0TD", some 5, some 4, none⟩)
    ∧ (optionsFlow ⟨⟨some "PVPC", some "2.0TD", some 5, some 4, none⟩, none⟩
          ⟨9, 8, true⟩ (some "tok")
        = (OptionsResult.createEntry "" ⟨some 9, some 8, some "tok"⟩, [])) := by
  constructor <;> decide

/-- C1 amended: a record committed by a setup session with the token checkbox
on carries the non-null submitted token, and the validator accepted exactly
that token during the session; a record committed by a reauth session with
the checkbox on carries the submitted token — which may be null when the
optional field was left empty — and the validator accepted it during the
session; the options flow with the checkbox on commits a non-null,
non-empty token but never consults the validator. -/
theorem token_validated_amended
    (check : Nat → Option String → Bool) (now : Nat) (configured : List String)
    (i : UserStepInput) (tokIn : String) (ri : ReauthInput) (ed : EntryData)
    (e : ConfigEntry) (oi : OptionsInitInput) (tokO : Option String) :
    (i.use_api_token = true → i.tariff ∉ configured → ∀ t d,
      (setupFlow check now configured i tokIn).1 = SetupResult.createEntry t d →
      d.api_token = some tokIn ∧ check now (some tokIn) = true)
    ∧ (ri.use_api_token = true → ∀ d,
        (reauthFlow check now ed ri).1 = SetupResult.updateReloadAndAbort d →
        d.api_token = ri.api_token ∧ check now ri.api_token = true)
    ∧ (oi.use_api_token = true →
        (optionsFlow e oi tokO).2 = []
        ∧ ∀ t d, (optionsFlow e oi tokO).1 = OptionsResult.createEntry t d →
            ∃ s, d.api_token = some s ∧ s ≠ "") := by
  refine ⟨?_, ?_, ?_⟩
  · intro hu hmem t d h
    rcases hb : check now (some tokIn) with _ | _ <;>
      simp [setupFlow, async_step_user, async_step_api_token, _async_verify,
        initialSetupState, hu, hmem, hb] at h
    refine ⟨?_, rfl⟩
    exact h.2 ▸ rfl
  · intro hu d h
    rcases hb : check now ri.api_token with _ | _ <;>
      simp [reauthFlow, async_step_reauth, async_step_reauth_confirm,
        _async_verify, initialSetupState, hu, hb] at h
    refine ⟨?_, rfl⟩
    exact h ▸ rfl
  · intro hu
    rcases ht : tokO with _ | s
    · constructor <;>
        simp [optionsFlow, options_step_init, options_step_api_token,
          tokenTruthy, hu]
    · rcases hs : decide (s = "") with _ | _
      · have hne : s ≠ "" := of_decide_eq_false hs
        constructor
        · simp [optionsFlow, options_step_init, options_step_api_token,
            tokenTruthy, hu, hne]
        · intro t d h
          simp [optionsFlow, options_step_init, options_step_api_token,
            tokenTruthy, hu, hne] at h
          exact ⟨s, h.2 ▸ rfl, hne⟩
      · have hse : s = "" := of_decide_eq_true hs
        subst hse
        constructor <;>
          simp [optionsFlow, options_step_init, options_step_api_token,
            tokenTruthy, hu]

/-- C1 amended witness: concrete sessions for all three flows.  A setup
session with an accepting validator and token `tok` commits `tok`,
validated; a reauth session submitting `new` commits `new`, validated; an
options session submitting `tok` commits it with an empty validator log. -/
theorem token_validated_amended_witness :
    ((⟨some "PVPC", some "2.0TD", some 5, some 4, some "tok"⟩
        : EntryData).api_token = some "tok"
      ∧ (fun (_ : Nat) (_ : Option String) => true) 0 (some "tok") = true)
    ∧ ((⟨some "PVPC", some "2.0TD", some 5, some 4, some "new"⟩
          : EntryData).api_token = (⟨true, some "new"⟩ : ReauthInput).api_token
        ∧ (fun (_ : Nat) (_ : Option String) => true) 0
            (⟨true, some "new"⟩ : ReauthInput).api_token = true)
    ∧ ((optionsFlow ⟨⟨some "PVPC", some "2.0TD", some 5, some 4, none⟩, none⟩
          ⟨9, 8, true⟩ (some "tok")).2 = []
        ∧ ∃ s, (⟨some 9, some 8, some "tok"⟩ : OptionsData).api_token = some s
            ∧ s ≠ "") := by
  have h := token_validated_amended (fun _ _ => true) 0 []
    ⟨"PVPC", "2.0TD", 5, 4, true⟩ "tok" ⟨true, some "new"⟩
    ⟨some "PVPC", some "2.0TD", some 5, some 4, some "old"⟩
    ⟨⟨some "PVPC", some "2.0TD", some 5, some 4, none⟩, none⟩
    ⟨9, 8, true⟩ (some "tok")
  refine ⟨?_, ?_, (h.2.2 rfl).1, ?_⟩
  · exact h.1 rfl (by decide) "PVPC"
      ⟨some "PVPC", some "2.0TD", some 5, some 4, some "tok"⟩ (by decide)
  · exact h.2.1 rfl
      ⟨some "PVPC", some "2.0TD", some 5, some 4, some "new"⟩ (by decide)
  · exact (h.2.2 rfl).2 ""
      ⟨some 9, some 8, some "tok"⟩ (by decide)

/-- C4: a reauthentication session whose submitted token the validator
accepts ends in an update-reload-and-abort outcome carrying the record
rebuilt from the stored name, tariff and powers together with the newly
submitted token; applying that outcome to the entry store replaces the
existing record in place — the store keeps its length (no second record is
created) and the slot of the reauthenticated entry now holds the new
record. -/
theorem reauth_success_replaces_record
    (check : Nat → Option String → Bool) (now : Nat) (ed : EntryData)
    (ri : ReauthInput) (entries : List EntryData) (idx : Nat)
    (huse : ri.use_api_token = true)
    (hchk : check now ri.api_token = true)
    (hidx : idx < entries.length) :
    (reauthFlow check now ed ri).1
      = SetupResult.updateReloadAndAbort
          ⟨ed.name, ed.tariff, ed.power, ed.power_p3, ri.api_token⟩
    ∧ (applySetupResult entries idx (reauthFlow check now ed ri).1).length
        = entries.length
    ∧ (applySetupResult entries idx (reauthFlow check now ed ri).1)[idx]?
        = some ⟨ed.name, ed.tariff, ed.power, ed.power_p3, ri.api_token⟩ := by
  have hres : (reauthFlow check now ed ri).1
      = SetupResult.updateReloadAndAbort
          ⟨ed.name, ed.tariff, ed.power, ed.power_p3, ri.api_token⟩ := by
    simp [reauthFlow, async_step_reauth, async_step_reauth_confirm,
      _async_verify, initialSetupState, huse, hchk]
  refine ⟨hres, ?_, ?_⟩
  · rw [hres]
    simp [applySetupResult]
  · rw [hres]
    simpa [applySetupResult] using
      List.getElem?_set_eq_of_lt
        (⟨ed.name, ed.tariff, ed.power, ed.power_p3, ri.api_token⟩ : EntryData)
        hidx

/-- C4 witness: a concrete reauth session with an accepting validator and a
one-record store: the outcome is the in-place update, the store keeps one
record, and that record is the reauthenticated one. -/
theorem reauth_success_replaces_record_witness :
    (reauthFlow (fun _ _ => true) 0
        ⟨some "PVPC", some "2.0TD", some 5, some 4, some "old"⟩
        ⟨true, some "new"⟩).1
      = SetupResult.updateReloadAndAbort
          ⟨some "PVPC", some "2.0TD", some 5, some 4, some "new"⟩
    ∧ (applySetupResult [⟨some "PVPC", some "2.0TD", some 5, some 4, some "old"⟩] 0
        (reauthFlow (fun _ _ => true) 0
          ⟨some "PVPC", some "2.0TD", some 5, some 4, some "old"⟩
          ⟨true, some "new"⟩).1).length
        = [(⟨some "PVPC", some "2.0TD", some 5, some 4, some "old"⟩ : EntryData)].length
    ∧ (applySetupResult [⟨some "PVPC", some "2.0TD", some 5, some 4, some "old"⟩] 0
        (reauthFlow (fun _ _ => true) 0
          ⟨some "PVPC", some "2.0TD", some 5, some 4, some "old"⟩
          ⟨true, some "new"⟩).1)[0]?
        = some ⟨some "PVPC", some "2.0TD", some 5, some 4, some "new"⟩ :=
  reauth_success_replaces_record (fun _ _ => true) 0
    ⟨some "PVPC", some "2.0TD", some 5, some 4, some "old"⟩
    ⟨true, some "new"⟩
    [⟨some "PVPC", some "2.0TD", some 5, some 4, some "old"⟩] 0
    rfl rfl (by decide)

/-- C6 counterexample: a setup session with the token checkbox unchecked
commits its record straight from the user step — the session's step trace
is just `user` and never passes through the verification step. -/
theorem setup_sequence_counterexample :
    ((setupFlow (fun _ _ => true) 0 [] ⟨"PVPC", "2.0TD", 5, 4, false⟩ "tok").1
      = SetupResult.createEntry "PVPC"
          ⟨some "PVPC", some "2.0TD", some 5, some 4, none⟩)
    ∧ "verify" ∉
        (setupFlow (fun _ _ => true) 0 [] ⟨"PVPC", "2.0TD", 5, 4, false⟩
          "tok").2.2 := by
  constructor <;> decide

/-- C6 amended: with the token checkbox checked, a setup session follows
user → api_token (entered once to render the form and once on submission)
→ verify, so every commit happens after the verification step; with the
checkbox unchecked the user step commits the record directly and the
session never enters the token or verification steps. -/
theorem setup_sequence_amended
    (check : Nat → Option String → Bool) (now : Nat) (configured : List String)
    (i : UserStepInput) (tokIn : String)
    (hmem : i.tariff ∉ configured) :
    (i.use_api_token = true →
      (setupFlow check now configured i tokIn).2.2
        = ["user", "api_token", "api_token", "verify"])
    ∧ (i.use_api_token = false →
      (setupFlow check now configured i tokIn).1
        = SetupResult.createEntry i.name
            ⟨some i.name, some i.tariff, some i.power, some i.power_p3, none⟩
      ∧ (setupFlow check now configured i tokIn).2.2 = ["user"]) := by
  constructor
  · intro hu
    rcases hb : check now (some tokIn) with _ | _ <;>
      simp [setupFlow, async_step_user, async_step_api_token, _async_verify,
        initialSetupState, hu, hmem, hb]
  · intro hu
    constructor <;> simp [setupFlow, async_step_user, hu, hmem]

/-- C6 amended witness: concrete sessions for both values of the checkbox. -/
theorem setup_sequence_amended_witness :
    ((setupFlow (fun _ _ => true) 0 [] ⟨"PVPC", "2.0TD", 5, 4, true⟩
        "tok").2.2 = ["user", "api_token", "api_token", "verify"])
    ∧ ((setupFlow (fun _ _ => true) 0 [] ⟨"Casa", "3.0TD", 5, 4, false⟩
          "tok").1
        = SetupResult.createEntry "Casa"
            ⟨some "Casa", some "3.0TD", some 5, some 4, none⟩
      ∧ (setupFlow (fun _ _ => true) 0 [] ⟨"Casa", "3.0TD", 5, 4, false⟩
          "tok").2.2 = ["user"]) :=
  ⟨(setup_sequence_amended (fun _ _ => true) 0 [] ⟨"PVPC", "2.0TD", 5, 4, true⟩
      "tok" (by decide)).1 rfl,
   (setup_sequence_amended (fun _ _ => true) 0 [] ⟨"Casa", "3.0TD", 5, 4, false⟩
      "tok" (by decide)).2 rfl⟩

/-- Helper: whenever the verification step renders a form, it is the form for
the step id it was invoked from, its errors dict is exactly the single
`invalid_auth` entry, and this happens only because the token is in use and
the validator rejected it. -/
theorem _async_verify_showForm_inv
    (check : Nat → Option String → Bool) (now : Nat) (st : SetupState)
    (sid s : String) (errs : List (String × String))
    (h : (_async_verify check now st sid).result = SetupResult.showForm s errs) :
    s = sid ∧ errs = [("base", "invalid_auth")]
    ∧ st.use_api_token = true ∧ check now st.api_token = false := by
  rcases Bool.eq_false_or_eq_true st.use_api_token with hu | hu <;>
    rcases Bool.eq_false_or_eq_true st.api with ha | ha <;>
      rcases hb : check now st.api_token with _ | _ <;>
        rcases Bool.eq_false_or_eq_true st.source_reauth with hs | hs <;>
          rcases hn : st.name with _ | n <;>
            simp [_async_verify, hu, ha, hb, hs, hn] at h <;>
              simp_all

/-- Helper: the verification step never aborts with already-configured. -/
theorem _async_verify_ne_abort
    (check : Nat → Option String → Bool) (now : Nat) (st : SetupState)
    (sid : String) :
    (_async_verify check now st sid).result
      ≠ SetupResult.abortAlreadyConfigured := by
  intro h
  rcases Bool.eq_false_or_eq_true st.use_api_token with hu | hu <;>
    rcases Bool.eq_false_or_eq_true st.api with ha | ha <;>
      rcases hb : check now st.api_token with _ | _ <;>
        rcases Bool.eq_false_or_eq_true st.source_reauth with hs | hs <;>
          rcases hn : st.name with _ | n <;>
            simp [_async_verify, hu, ha, hb, hs, hn] at h

/-- C7 counterexample: a setup submission for an already-configured tariff
ends in the already-configured abort — a failure outcome that is not a
rendered form carrying the inline `invalid_auth` error. -/
theorem error_kinds_counterexample :
    (async_step_user (fun _ _ => true) 0 ["2.0TD"] (initialSetupState false)
        (some ⟨"PVPC", "2.0TD", 5, 4, false⟩)).result
      = SetupResult.abortAlreadyConfigured
    ∧ ∀ s errs,
        SetupResult.abortAlreadyConfigured ≠ SetupResult.showForm s errs := by
  refine ⟨by decide, fun s errs h => by cases h⟩

/-- C7 amended: the only error kind either flow ever attaches to a rendered
form is the single `invalid_auth` entry, produced exclusively by the
verification step on the form of the step it was invoked from (the token
and reauth-confirm forms); every other rendered form of both flows carries
an empty errors dict.  Besides this inline error the flows have exactly one
other failure outcome: the setup user step's abort when the submitted
tariff is already configured; the verification and reauth-confirm steps
never abort that way. -/
theorem error_kinds_amended
    (check : Nat → Option String → Bool) (now : Nat) (st : SetupState)
    (sid : String) (configured : List String) (uin : Option UserStepInput)
    (tin : Option String) (rin : Option ReauthInput) (ed : EntryData)
    (e : ConfigEntry) (fs : OptionsFlowState) (oin : Option OptionsInitInput)
    (otin : Option (Option String)) :
    (∀ s errs,
        (_async_verify check now st sid).result = SetupResult.showForm s errs →
        s = sid ∧ errs = [("base", "invalid_auth")]
        ∧ st.use_api_token = true ∧ check now st.api_token = false)
    ∧ (∀ s errs,
        (async_step_user check now configured st uin).result
          = SetupResult.showForm s errs → errs = [])
    ∧ (∀ s errs,
        (async_step_api_token check now st tin).result
          = SetupResult.showForm s errs →
        s = "api_token" ∧ (errs = [] ∨ errs = [("base", "invalid_auth")]))
    ∧ (∀ s errs,
        (async_step_reauth_confirm check now st rin).result
          = SetupResult.showForm s errs →
        s = "reauth_confirm" ∧ (errs = [] ∨ errs = [("base", "invalid_auth")]))
    ∧ (∀ s errs,
        (async_step_reauth check now ed).result = SetupResult.showForm s errs →
        s = "reauth_confirm" ∧ errs = [])
    ∧ (∀ pd p3d ud errs,
        (options_step_init e fs oin).result
          = OptionsResult.showFormInit pd p3d ud errs → errs = [])
    ∧ (∀ td errs,
        (options_step_init e fs oin).result
          = OptionsResult.showFormToken td errs → errs = [])
    ∧ (∀ td errs,
        (options_step_api_token e fs otin).result
          = OptionsResult.showFormToken td errs → errs = [])
    ∧ ((async_step_user check now configured st uin).result
          = SetupResult.abortAlreadyConfigured →
        ∃ i, uin = some i ∧ i.tariff ∈ configured)
    ∧ ((_async_verify check now st sid).result
          ≠ SetupResult.abortAlreadyConfigured)
    ∧ ((async_step_reauth_confirm check now st rin).result
          ≠ SetupResult.abortAlreadyConfigured) := by
  refine ⟨fun s errs h => _async_verify_showForm_inv check now st sid s errs h,
    ?_, ?_, ?_, ?_, ?_, ?_, ?_, ?_,
    _async_verify_ne_abort check now st sid, ?_⟩
  · intro s errs h
    rcases uin with _ | i
    · simp [async_step_user] at h
      simp_all
    · rcases hm : decide (i.tariff ∈ configured) with _ | _
      · have hmem := of_decide_eq_false hm
        rcases Bool.eq_false_or_eq_true i.use_api_token with hu | hu <;>
          simp [async_step_user, async_step_api_token, hmem, hu] at h <;>
            simp_all
      · have hmem := of_decide_eq_true hm
        simp [async_step_user, hmem] at h
  · intro s errs h
    rcases tin with _ | tok
    · simp [async_step_api_token] at h
      simp_all
    · simp only [async_step_api_token] at h
      have := _async_verify_showForm_inv check now
        { st with api_token := some tok } "api_token" s errs h
      exact ⟨this.1, Or.inr this.2.1⟩
  · intro s errs h
    rcases rin with _ | ri
    · simp [async_step_reauth_confirm] at h
      simp_all
    · simp only [async_step_reauth_confirm] at h
      have := _async_verify_showForm_inv check now
        { st with api_token := ri.api_token, use_api_token := ri.use_api_token }
        "reauth_confirm" s errs h
      exact ⟨this.1, Or.inr this.2.1⟩
  · intro s errs h
    simp [async_step_reauth, async_step_reauth_confirm] at h
    simp_all
  · intro pd p3d ud errs h
    rcases oin with _ | oi
    · simp [options_step_init] at h
      simp_all
    · rcases Bool.eq_false_or_eq_true oi.use_api_token with hu | hu <;>
        simp [options_step_init, options_step_api_token, tokenTruthy, hu] at h
  · intro td errs h
    rcases oin with _ | oi
    · simp [options_step_init] at h
    · rcases Bool.eq_false_or_eq_true oi.use_api_token with hu | hu <;>
        simp [options_step_init, options_step_api_token, tokenTruthy, hu] at h <;>
          simp_all
  · intro td errs h
    rcases otin with _ | t
    · simp [options_step_api_token] at h
      simp_all
    · rcases hb : tokenTruthy t with _ | _ <;>
        simp [options_step_api_token, hb] at h <;>
          simp_all
  · intro h
    rcases uin with _ | i
    · simp [async_step_user] at h
    · rcases hm : decide (i.tariff ∈ configured) with _ | _
      · have hmem := of_decide_eq_false hm
        rcases Bool.eq_false_or_eq_true i.use_api_token with hu | hu <;>
          simp [async_step_user, async_step_api_token, hmem, hu] at h
      · exact ⟨i, rfl, of_decide_eq_true hm⟩
  · intro h
    rcases rin with _ | ri
    · simp [async_step_reauth_confirm] at h
    · simp only [async_step_reauth_confirm] at h
      exact _async_verify_ne_abort check now
        { st with api_token := ri.api_token, use_api_token := ri.use_api_token }
        "reauth_confirm" h

/-- C7 amended witness: with an always-rejecting validator and a used token,
a concrete verification attempt is confirmed to error with `invalid_auth`
on its own form, and a concrete duplicate-tariff submission is confirmed to
be the abort outcome. -/
theorem error_kinds_amended_witness :
    (("api_token" : String) = "api_token"
      ∧ ([("base", "invalid_auth")] : List (String × String))
          = [("base", "invalid_auth")]
      ∧ ({ initialSetupState false with
            use_api_token := true, api_token := some "bad" }
          : SetupState).use_api_token = true
      ∧ (fun (_ : Nat) (_ : Option String) => false) 0
          ({ initialSetupState false with
              use_api_token := true, api_token := some "bad" }
            : SetupState).api_token = false)
    ∧ ∃ i, (some ⟨"PVPC", "2.0TD", 5, 4, false⟩ : Option UserStepInput) = some i
        ∧ i.tariff ∈ (["2.0TD"] : List String) := by
  have h := error_kinds_amended (fun _ _ => false) 0
    { initialSetupState false with use_api_token := true, api_token := some "bad" }
    "api_token" ["2.0TD"] (some ⟨"PVPC", "2.0TD", 5, 4, false⟩) none none
    ⟨some "PVPC", some "2.0TD", some 5, some 4, none⟩
    ⟨⟨some "PVPC", some "2.0TD", some 5, some 4, none⟩, none⟩
    initialOptionsFlowState none (some (some ""))
  exact ⟨h.1 "api_token" [("base", "invalid_auth")] (by decide),
         h.2.2.2.2.2.2.2.2.1 (by decide)⟩

/-- C9: in the options flow's token step, a submission whose token value is
missing (the key absent or null) or the empty string re-shows the token
form, prefilled with the stored token looked up from the entry's options
falling back to its data (`entryGetToken`), and the step commits no
record. -/
theorem options_empty_token_reshows_form
    (e : ConfigEntry) (fs : OptionsFlowState) (t : Option String)
    (h : t = none ∨ t = some "") :
    (options_step_api_token e fs (some t)).result
      = OptionsResult.showFormToken (entryGetToken e) []
    ∧ ∀ ttl d, (options_step_api_token e fs (some t)).result
        ≠ OptionsResult.createEntry ttl d := by
  rcases h with h | h <;> subst h <;>
    exact ⟨by simp [options_step_api_token, tokenTruthy],
           fun ttl d hc => by simp [options_step_api_token, tokenTruthy] at hc⟩

/-- C9 witness: submitting a null token and submitting an empty-string token
against a concrete entry both re-show the prefilled token form. -/
theorem options_empty_token_reshows_form_witness :
    ((options_step_api_token
        ⟨⟨some "PVPC", some "2.0TD", some 5, some 4, some "stored"⟩, none⟩
        ⟨some 9, some 8⟩ (some none)).result
      = OptionsResult.showFormToken
          (entryGetToken
            ⟨⟨some "PVPC", some "2.0TD", some 5, some 4, some "stored"⟩, none⟩) []
    ∧ ∀ ttl d, (options_step_api_token
        ⟨⟨some "PVPC", some "2.0TD", some 5, some 4, some "stored"⟩, none⟩
        ⟨some 9, some 8⟩ (some none)).result
        ≠ OptionsResult.createEntry ttl d)
    ∧ ((options_step_api_token
        ⟨⟨some "PVPC", some "2.0TD", some 5, some 4, none⟩,
          some ⟨some 5, some 4, some "optTok"⟩⟩
        ⟨some 9, some 8⟩ (some (some ""))).result
      = OptionsResult.showFormToken
          (entryGetToken
            ⟨⟨some "PVPC", some "2.0TD", some 5, some 4, none⟩,
              some ⟨some 5, some 4, some "optTok"⟩⟩) []
    ∧ ∀ ttl d, (options_step_api_token
        ⟨⟨some "PVPC", some "2.0TD", some 5, some 4, none⟩,
          some ⟨some 5, some 4, some "optTok"⟩⟩
        ⟨some 9, some 8⟩ (some (some ""))).result
        ≠ OptionsResult.createEntry ttl d) :=
  ⟨options_empty_token_reshows_form
      ⟨⟨some "PVPC", some "2.0TD", some 5, some 4, some "stored"⟩, none⟩
      ⟨some 9, some 8⟩ none (Or.inl rfl),
   options_empty_token_reshows_form
      ⟨⟨some "PVPC", some "2.0TD", some 5, some 4, none⟩,
        some ⟨some 5, some 4, some "optTok"⟩⟩
      ⟨some 9, some 8⟩ (some "") (Or.inr rfl)⟩

/-- C10: every record the options flow commits is an options dict with
exactly the three keys power, power_p3 and api_token (the `OptionsData`
shape), with the values shown; and applying any options-flow outcome to the
config entry leaves the entry's data dict — in particular its name and
tariff id — unchanged. -/
theorem options_commit_exact_keys_and_frame
    (e : ConfigEntry) (fs : OptionsFlowState) (oi : OptionsInitInput)
    (uin : Option (Option String)) :
    (∀ ttl d, (options_step_init e fs (some oi)).result
        = OptionsResult.createEntry ttl d →
      ttl = "" ∧ d = ⟨some oi.power, some oi.power_p3, none⟩)
    ∧ (∀ ttl d, (options_step_api_token e fs uin).result
        = OptionsResult.createEntry ttl d →
      ttl = "" ∧ d.power = fs.power ∧ d.power_p3 = fs.power_p3
      ∧ tokenTruthy d.api_token = true)
    ∧ (∀ r, (applyOptionsResult e r).data.name = e.data.name
        ∧ (applyOptionsResult e r).data.tariff = e.data.tariff) := by
  refine ⟨?_, ?_, ?_⟩
  · intro ttl d h
    rcases Bool.eq_false_or_eq_true oi.use_api_token with hu | hu <;>
      simp [options_step_init, options_step_api_token, tokenTruthy, hu] at h
    simp_all
  · intro ttl d h
    rcases uin with _ | t
    · simp [options_step_api_token] at h
    · rcases hb : tokenTruthy t with _ | _ <;>
        simp [options_step_api_token, hb] at h
      obtain ⟨h1, h2⟩ := h
      subst h2
      exact ⟨h1.symm, rfl, rfl, hb⟩
  · intro r
    rcases r with _ | _ | _ <;> simp [applyOptionsResult]

/-- C10 witness: a concrete init-step commit, a concrete token-step commit,
and a concrete applied outcome confirm the committed shape and the
unchanged name and tariff. -/
theorem options_commit_exact_keys_and_frame_witness :
    (("" : String) = "" ∧ (⟨some 9, some 8, none⟩ : OptionsData)
        = ⟨some 9, some 8, none⟩)
    ∧ (("" : String) = ""
        ∧ (⟨some 9, some 8, some "tok"⟩ : OptionsData).power
            = (⟨some 9, some 8⟩ : OptionsFlowState).power
        ∧ (⟨some 9, some 8, some "tok"⟩ : OptionsData).power_p3
            = (⟨some 9, some 8⟩ : OptionsFlowState).power_p3
        ∧ tokenTruthy (⟨some 9, some 8, some "tok"⟩ : OptionsData).api_token
            = true)
    ∧ ((applyOptionsResult
          ⟨⟨some "PVPC", some "2.0TD", some 5, some 4, none⟩, none⟩
          (OptionsResult.createEntry "" ⟨some 9, some 8, some "tok"⟩)).data.name
        = (⟨some "PVPC", some "2.0TD", some 5, some 4, none⟩ : EntryData).name
      ∧ (applyOptionsResult
          ⟨⟨some "PVPC", some "2.0TD", some 5, some 4, none⟩, none⟩
          (OptionsResult.createEntry "" ⟨some 9, some 8, some "tok"⟩)).data.tariff
        = (⟨some "PVPC", some "2.0TD", some 5, some 4, none⟩ : EntryData).tariff) := by
  have h := options_commit_exact_keys_and_frame
    ⟨⟨some "PVPC", some "2.0TD", some 5, some 4, none⟩, none⟩
    ⟨some 9, some 8⟩ ⟨9, 8, false⟩ (some (some "tok"))
  exact ⟨h.1 "" ⟨some 9, some 8, none⟩ (by decide),
         h.2.1 "" ⟨some 9, some 8, some "tok"⟩ (by decide),
         h.2.2 (OptionsResult.createEntry "" ⟨some 9, some 8, some "tok"⟩)⟩

end PVPC
